import Mathlib

/-!
Verification of the event-capture pipeline of the streamlit file-events viewer
(file_viewer.py and file_viewer_0.py): the watchdog event handler, the
producer/consumer queue, the event history kept in session state, the
five-minute recent-events window, the monitoring start/stop controls and the
configuration loader.  Paths and timestamps are modelled as lists of
characters and integer seconds respectively.
-/

/-- Raw filesystem event as delivered by watchdog to the handler:
its event type, source path and whether it is a directory-level event. -/
structure RawEvent where
  eventType : String
  srcPath : List Char
  isDirectory : Bool
  deriving DecidableEq, Repr

/-- FileEventWrapper from file_viewer.py: the record stored in the queue and in
the event history, carrying the event type, the source path and the timestamp
taken at capture time (modelled as integer seconds). -/
structure FileEventWrapper where
  event_type : String
  src_path : List Char
  timestamp : Int
  deriving DecidableEq, Repr

/-- The ignore list written in FileEventHandler.on_any_event of file_viewer.py. -/
def ignoreList : List (List Char) := [".DS_Store".data, ".localized".data]

/-- Whether the second list is a leading segment of the first (the head-position
case of Python substring containment). -/
def leadMatch : List Char → List Char → Bool
  | _, [] => true
  | [], _ :: _ => false
  | a :: as, b :: bs => a == b && leadMatch as bs

/-- Python `needle in hay` on strings: the first list occurs contiguously
inside the second. -/
def containsSub (needle : List Char) : List Char → Bool
  | [] => leadMatch [] needle
  | c :: rest => leadMatch (c :: rest) needle || containsSub needle rest

/-- The guard of FileEventHandler.on_any_event in file_viewer.py: the event is
enqueued iff it is not a directory event and no ignore-list entry occurs as a
substring of its source path. -/
def shouldEnqueue (e : RawEvent) : Bool :=
  !e.isDirectory && !(ignoreList.any fun ig => containsSub ig e.srcPath)

/-- The guard of FileEventHandler.on_any_event in file_viewer_0.py: the event
is enqueued iff it is not a directory event. -/
def shouldEnqueueV0 (e : RawEvent) : Bool :=
  !e.isDirectory

/-- FileEventWrapper.__init__: copy the event type and path and stamp the
record with the current time. -/
def wrapEvent (now : Int) (e : RawEvent) : FileEventWrapper :=
  ⟨e.eventType, e.srcPath, now⟩

/-- FileEventHandler.on_any_event of file_viewer.py acting on the queue
contents: append the wrapped event when the guard passes, else leave the
queue unchanged (the event is suppressed). -/
def on_any_event (now : Int) (e : RawEvent) (q : List FileEventWrapper) :
    List FileEventWrapper :=
  if shouldEnqueue e then q ++ [wrapEvent now e] else q

/-- Modelled from the spec: the final path segment of a path, used to state
the spec's "exact filename match" reading of the ignore list. -/
def baseNameOf (p : List Char) : List Char :=
  ((p.reverse.takeWhile fun c => c != '/').reverse)

/-- Modelled from the spec: suppression by exact filename match against the
ignore list, as section 4.2 of the spec words it. -/
def exactFilenameMatchSpec (p : List Char) : Bool :=
  ignoreList.any fun ig => baseNameOf p == ig

/-- Modelled from the spec: query_since(cutoff) returns, in arrival order, all
retained events whose captured_at is at least the cutoff. -/
def query_since (cutoff : Int) (events : List FileEventWrapper) :
    List FileEventWrapper :=
  events.filter fun ev => cutoff ≤ ev.timestamp

/-- The filter inside display_recent_events of file_viewer.py: keep, in list
order, the events whose timestamp is at least now minus five minutes; the
five-minute bound is written into the function body, not passed in. -/
def recentEvents (now : Int) (events : List FileEventWrapper) :
    List FileEventWrapper :=
  events.filter fun ev => now - 300 ≤ ev.timestamp

/-- Handle for a started watchdog observer, remembering the scheduled path
(start_observer schedules the handler on the chosen folder). -/
structure ObserverHandle where
  path : List Char
  deriving DecidableEq, Repr

/-- The streamlit session-state fields used by the monitoring logic of
file_viewer.py: the shared queue, the observer handle, the accumulated event
history and the monitoring flag. -/
structure SessionState where
  event_queue : List FileEventWrapper
  observer : Option ObserverHandle
  event_list : List FileEventWrapper
  monitoring : Bool
  deriving DecidableEq, Repr

/-- The session-state initialisation block: empty queue, no observer, empty
event history, monitoring off. -/
def initState : SessionState := ⟨[], none, [], false⟩

/-- Operations performed on the observer handle during shutdown. -/
inductive ObsOp where
  | halt : ObsOp
  | join : ObsOp
  deriving DecidableEq, Repr

/-- stop_observer of file_viewer.py: signal the observer to stop, then join,
blocking until the observer thread has terminated. -/
def stop_observer : List ObsOp := [ObsOp.halt, ObsOp.join]

/-- Body of the Stop Monitoring handler in main: if an observer handle is
present, run stop_observer on it and clear the handle; in any case set the
monitoring flag to false.  Returns the new state together with the sequence
of observer operations performed. -/
def stopClick (s : SessionState) : SessionState × List ObsOp :=
  match s.observer with
  | some _ => ({ s with observer := none, monitoring := false }, stop_observer)
  | none => ({ s with monitoring := false }, [])

/-- What the user does on one rendering of the monitoring controls. -/
inductive UserAction where
  | clickStart : List Char → UserAction
  | clickStop : UserAction
  | noClick : UserAction
  deriving DecidableEq, Repr

/-- What the controls surface back to the user on one rendering. -/
inductive UiOutcome where
  | startedMsg : List Char → UiOutcome
  | stoppedMsg : UiOutcome
  | noAction : UiOutcome
  deriving DecidableEq, Repr

/-- The monitoring-controls block of main in file_viewer.py: when monitoring
is off only the Start button is rendered, and clicking it installs an
observer on the entered path and raises the flag; when monitoring is on only
the Stop button is rendered, and clicking it runs the stop handler.  Any
other action leaves the state untouched and surfaces nothing. -/
def controlStep (s : SessionState) (a : UserAction) :
    SessionState × UiOutcome × List ObsOp :=
  if s.monitoring then
    match a with
    | UserAction.clickStop => ((stopClick s).1, UiOutcome.stoppedMsg, (stopClick s).2)
    | _ => (s, UiOutcome.noAction, [])
  else
    match a with
    | UserAction.clickStart p =>
        ({ s with observer := some ⟨p⟩, monitoring := true },
          UiOutcome.startedMsg p, [])
    | _ => (s, UiOutcome.noAction, [])

/-- The while-loop of check_events_and_update: repeatedly dequeue the head of
the queue and append it to the event history, raising the processed flag each
time; stops when the queue is empty. -/
def drainLoop : List FileEventWrapper → List FileEventWrapper → Bool →
    List FileEventWrapper × Bool
  | [], hist, flag => (hist, flag)
  | e :: rest, hist, _ => drainLoop rest (hist ++ [e]) true

/-- check_events_and_update of file_viewer.py: drain the whole queue into the
event history in arrival order and report whether any event was processed
(a boolean flag, which is also the function's return value). -/
def check_events_and_update (s : SessionState) : SessionState × Bool :=
  ({ s with
      event_queue := [],
      event_list := (drainLoop s.event_queue s.event_list false).1 },
    (drainLoop s.event_queue s.event_list false).2)

/-- One atomic queue operation in an interleaving of the producer thread and
the consumer thread. -/
inductive QOp where
  | push : FileEventWrapper → QOp
  | drainAll : QOp
  deriving DecidableEq, Repr

/-- drain_all on the queue contents: atomically remove and return everything
currently queued, leaving the queue empty (this is what the drain loop of
check_events_and_update does to the queue). -/
def drain_all (q : List FileEventWrapper) :
    List FileEventWrapper × List FileEventWrapper := (q, [])

/-- Run an interleaving of producer pushes (FileEventHandler putting wrapped
events on the queue) and consumer drains, starting from queue q and already
collected drain outputs outs; returns the final queue contents and the list
of successive drain results. -/
def runQueue (q : List FileEventWrapper) (outs : List (List FileEventWrapper)) :
    List QOp → List FileEventWrapper × List (List FileEventWrapper)
  | [] => (q, outs)
  | QOp.push e :: rest => runQueue (q ++ [e]) outs rest
  | QOp.drainAll :: rest => runQueue (drain_all q).2 (outs ++ [(drain_all q).1]) rest

/-- The events pushed by an interleaving, in push order. -/
def pushesOf : List QOp → List FileEventWrapper
  | [] => []
  | QOp.push e :: rest => e :: pushesOf rest
  | QOp.drainAll :: rest => pushesOf rest

/-- One step of the running system: either the observer thread delivers a raw
event to the handler at some time, or the consumer tick runs
check_events_and_update. -/
inductive SysOp where
  | raw : Int → RawEvent → SysOp
  | tick : SysOp

/-- Run the event pipeline of file_viewer.py over a sequence of raw deliveries
and consumer ticks. -/
def runSys (s : SessionState) : List SysOp → SessionState
  | [] => s
  | SysOp.raw t e :: rest =>
      runSys { s with event_queue := on_any_event t e s.event_queue } rest
  | SysOp.tick :: rest => runSys (check_events_and_update s).1 rest

/-- Configuration record of file_viewer.py. -/
structure Config where
  refresh_rate : Nat
  starting_directory : String
  deriving DecidableEq, Repr

/-- The default configuration literal on the last line of load_config. -/
def defaultConfig : Config := ⟨15000, "~/Downloads"⟩

/-- load_config of file_viewer.py: when the configuration file exists its
parsed contents are returned, otherwise the default configuration.  The file
system is modelled as the optional file contents and yaml parsing as an
arbitrary function. -/
def load_config (configFile : Option String) (parseYaml : String → Config) :
    Config :=
  match configFile with
  | some text => parseYaml text
  | none => defaultConfig

/-- Closed form of the drain loop: the queue is appended to the history in
order and the flag reports whether the queue was nonempty. -/
theorem drainLoop_eq (q hist : List FileEventWrapper) (flag : Bool) :
    drainLoop q hist flag = (hist ++ q, flag || !q.isEmpty) := by
  induction q generalizing hist flag with
  | nil => simp [drainLoop]
  | cons e rest ih => simp [drainLoop, ih]

/-- Closed form of check_events_and_update: the queue is emptied, its contents
are appended to the event history in arrival order, and the returned flag says
whether the queue held anything. -/
theorem check_events_and_update_eq (s : SessionState) :
    check_events_and_update s =
      ({ s with event_queue := [], event_list := s.event_list ++ s.event_queue },
        !s.event_queue.isEmpty) := by
  simp [check_events_and_update, drainLoop_eq]

/-- Accounting invariant of the queue interleaving: drained outputs plus the
current queue always equal the already collected outputs plus the starting
queue plus everything pushed. -/
theorem runQueue_spec (ops : List QOp) :
    ∀ q outs, ((runQueue q outs ops).2).flatten ++ (runQueue q outs ops).1 =
      outs.flatten ++ (q ++ pushesOf ops) := by
  induction ops with
  | nil => intro q outs; simp [runQueue, pushesOf]
  | cons op rest ih =>
    intro q outs
    cases op with
    | push e => simp [runQueue, pushesOf, ih]
    | drainAll => simp [runQueue, pushesOf, drain_all, ih]

/-- Running an interleaving split in two runs the second part from the state
reached by the first. -/
theorem runQueue_append (ops1 ops2 : List QOp) :
    ∀ q outs, runQueue q outs (ops1 ++ ops2) =
      runQueue (runQueue q outs ops1).1 (runQueue q outs ops1).2 ops2 := by
  induction ops1 with
  | nil => intro q outs; simp [runQueue]
  | cons op rest ih =>
    intro q outs
    cases op with
    | push e => simp [runQueue, ih]
    | drainAll => simp [runQueue, drain_all, ih]

/-- Every listed event has a source path free of the ".DS_Store" substring. -/
def cleanList (l : List FileEventWrapper) : Bool :=
  l.all fun w => !containsSub ".DS_Store".data w.src_path

/-- Cleanliness distributes over appending. -/
theorem cleanList_append (l1 l2 : List FileEventWrapper) :
    cleanList (l1 ++ l2) = (cleanList l1 && cleanList l2) := by
  simp [cleanList, List.all_append]

/-- The enqueue guard unfolded into its two conditions. -/
theorem shouldEnqueue_eq_true_iff (e : RawEvent) :
    shouldEnqueue e = true ↔
      (e.isDirectory = false ∧
        (ignoreList.any fun ig => containsSub ig e.srcPath) = false) := by
  cases hd : e.isDirectory <;>
    cases ha : (ignoreList.any fun ig => containsSub ig e.srcPath) <;>
      simp [shouldEnqueue, hd, ha]

/-- The handler changes the queue exactly when the guard passes. -/
theorem on_any_event_ne_iff (now : Int) (e : RawEvent) (q : List FileEventWrapper) :
    on_any_event now e q ≠ q ↔ shouldEnqueue e = true := by
  by_cases h : shouldEnqueue e = true
  · have he : on_any_event now e q = q ++ [wrapEvent now e] := by
      simp [on_any_event, h]
    rw [he]
    simp only [h, iff_true, ne_eq]
    intro hcontra
    have hlen := congrArg List.length hcontra
    simp at hlen
  · simp [on_any_event, h]

/-- The handler preserves cleanliness of the queue: every event it enqueues
passed the substring filter, so its path cannot contain ".DS_Store". -/
theorem on_any_event_clean (now : Int) (e : RawEvent) (q : List FileEventWrapper)
    (hq : cleanList q = true) : cleanList (on_any_event now e q) = true := by
  unfold on_any_event
  by_cases h : shouldEnqueue e = true
  · rw [if_pos h, cleanList_append, hq]
    have hany := ((shouldEnqueue_eq_true_iff e).1 h).2
    simp [ignoreList] at hany
    simp [cleanList, wrapEvent, hany.1]
  · rw [if_neg h]
    exact hq

/-- Running the pipeline from clean queue and history keeps both clean. -/
theorem runSys_clean (ops : List SysOp) :
    ∀ s : SessionState, cleanList s.event_queue = true →
      cleanList s.event_list = true →
      cleanList (runSys s ops).event_queue = true ∧
        cleanList (runSys s ops).event_list = true := by
  induction ops with
  | nil => intro s hq hl; exact ⟨hq, hl⟩
  | cons op rest ih =>
    intro s hq hl
    cases op with
    | raw t e => exact ih _ (on_any_event_clean t e _ hq) hl
    | tick =>
        refine ih _ ?_ ?_
        · simp [check_events_and_update_eq, cleanList]
        · simp [check_events_and_update_eq, cleanList_append, hq, hl]

/-- C1 (amended): FileEventHandler.on_any_event of file_viewer.py produces a
queued record iff the event is not a directory-level event and no ignore-list
entry occurs as a substring of the full source path (substring match, not
exact filename match); consequently an event whose path contains ".DS_Store"
never appears in the recent-events output, under any window position. -/
theorem C1_normalizer_suppression :
    (∀ (now : Int) (e : RawEvent) (q : List FileEventWrapper),
        on_any_event now e q ≠ q ↔
          (e.isDirectory = false ∧
            (ignoreList.any fun ig => containsSub ig e.srcPath) = false))
    ∧ (∀ (ops : List SysOp) (now : Int),
        cleanList (recentEvents now (runSys initState ops).event_list) = true) := by
  constructor
  · intro now e q
    rw [on_any_event_ne_iff, shouldEnqueue_eq_true_iff]
  · intro ops now
    have h := (runSys_clean ops initState (by simp [cleanList, initState])
      (by simp [cleanList, initState])).2
    revert h
    generalize (runSys initState ops).event_list = l
    intro h
    simp only [cleanList, List.all_eq_true] at h ⊢
    intro w hw
    exact h w (List.mem_of_mem_filter hw)

/-- Concrete raw file event whose filename ".DS_Store.bak" is not an exact
match for any ignore-list entry. -/
def evBak : RawEvent := ⟨"created", "/tmp/.DS_Store.bak".data, false⟩

/-- C1 is false as literally stated: this non-directory event matches no
ignore-list entry by exact filename, yet the handler suppresses it, because
the code tests substring containment over the whole path. -/
theorem C1_counterexample :
    on_any_event 0 evBak [] = [] ∧ evBak.isDirectory = false
    ∧ exactFilenameMatchSpec evBak.srcPath = false := by
  exact ⟨rfl, rfl, by decide⟩

/-- C2: over every interleaving of producer pushes and consumer drains, the
concatenated drain outputs followed by the residual queue are exactly the
pushes in push order (nothing lost, nothing duplicated, order kept); when the
interleaving ends in a drain the concatenated drain outputs alone equal the
pushes; and a drain immediately following another drain returns the empty
sequence. -/
theorem C2_fifo_no_loss :
    ∀ ops : List QOp,
      ((runQueue [] [] ops).2).flatten ++ (runQueue [] [] ops).1 = pushesOf ops
      ∧ ((runQueue [] [] (ops ++ [QOp.drainAll])).2).flatten = pushesOf ops
      ∧ (runQueue [] [] (ops ++ [QOp.drainAll, QOp.drainAll])).2 =
          (runQueue [] [] ops).2 ++ [(runQueue [] [] ops).1, []] := by
  intro ops
  refine ⟨by simpa using runQueue_spec ops [] [], ?_, ?_⟩
  · rw [runQueue_append]
    simp [runQueue, drain_all]
    simpa using runQueue_spec ops [] []
  · rw [runQueue_append]
    simp [runQueue, drain_all]

/-- Concrete retained event 400 seconds old at evaluation time 1000. -/
def evMid : FileEventWrapper := ⟨"created", "/w/d.txt".data, 600⟩

/-- C3 is false as literally stated: the window bound is not a parameter of
the query.  For cutoff 400 the spec query returns the 400-second-old event,
but the code's recent-events filter, whose bound is fixed at 300 seconds,
does not, whatever cutoff the caller had in mind. -/
theorem C3_counterexample :
    recentEvents 1000 [evMid] ≠ query_since 400 [evMid] := by decide

/-- C3 (amended): the recent-events filter of display_recent_events equals
query_since evaluated at the hard-coded cutoff of now minus 300 seconds; it
returns, in arrival order, exactly the retained events whose timestamp is at
least that cutoff. -/
theorem C3_window_filter (now : Int) (events : List FileEventWrapper) :
    recentEvents now events = query_since (now - 300) events
    ∧ (recentEvents now events).Sublist events
    ∧ ∀ ev, ev ∈ recentEvents now events ↔
        ev ∈ events ∧ now - 300 ≤ ev.timestamp := by
  refine ⟨rfl, List.filter_sublist _, ?_⟩
  intro ev
  simp [recentEvents, List.mem_filter]

/-- The three-event history of the window-correctness scenario, written
relative to the evaluation time T. -/
def histAt (T : Int) : List FileEventWrapper :=
  [⟨"modified", "/w/a.txt".data, T - 10⟩,
   ⟨"modified", "/w/b.txt".data, T - 240⟩,
   ⟨"modified", "/w/c.txt".data, T - 600⟩]

/-- C4 is false as stated: at time 600, with events captured 10 seconds,
4 minutes and 10 minutes earlier, the 300-second window keeps both of the
first two events, not only the 4-minute-old one. -/
theorem C4_counterexample :
    recentEvents 600 (histAt 600) ≠ [⟨"modified", "/w/b.txt".data, 360⟩] := by
  decide

/-- C4 (amended): for every evaluation time T, the 300-second window over
events captured at T-10s, T-4min and T-10min returns the T-10s and T-4min
events, in arrival order, and excludes only the T-10min event. -/
theorem C4_window_scenario (T : Int) :
    recentEvents T (histAt T) =
      [⟨"modified", "/w/a.txt".data, T - 10⟩,
       ⟨"modified", "/w/b.txt".data, T - 240⟩] := by
  have h1 : T - 300 ≤ T - 10 := by omega
  have h2 : T - 300 ≤ T - 240 := by omega
  have h3 : ¬ (T - 300 ≤ T - 600) := by omega
  simp [recentEvents, histAt, List.filter, h1, h2, h3]

/-- Event retained from a previous monitoring session. -/
def evOld : FileEventWrapper := ⟨"created", "/w/old.txt".data, 50⟩

/-- Session state holding history from a previous session, monitoring off. -/
def statePrior : SessionState := ⟨[], none, [evOld], false⟩

/-- C5 is false as stated: the Start Monitoring handler succeeds (it surfaces
the started message) yet the event history is not cleared — there is no reset
call anywhere in the handler. -/
theorem C5_counterexample :
    (controlStep statePrior (UserAction.clickStart "/w".data)).2.1 =
        UiOutcome.startedMsg "/w".data
    ∧ (controlStep statePrior (UserAction.clickStart "/w".data)).1.event_list
        = [evOld] := by
  exact ⟨rfl, rfl⟩

/-- C5 (amended): no control action ever changes the event history, so the
history persists across stop/start session boundaries; in particular an event
from a previous session is still returned by the recent-events query after a
start, stop, start cycle (here at evaluation time 100, well within the
window of the old event). -/
theorem C5_no_reset_on_start :
    (∀ (s : SessionState) (a : UserAction),
        (controlStep s a).1.event_list = s.event_list)
    ∧ evOld ∈ recentEvents 100 (controlStep (controlStep (controlStep statePrior
        (UserAction.clickStart "/w".data)).1 UserAction.clickStop).1
        (UserAction.clickStart "/v".data)).1.event_list := by
  constructor
  · intro s a
    rcases s with ⟨q, obs, el, mon⟩
    cases a <;> cases mon <;> cases obs <;> simp [controlStep, stopClick]
  · decide

/-- Active session state watching the path "/a". -/
def stateActiveA : SessionState := ⟨[], some ⟨"/a".data⟩, [], true⟩

/-- C6 is false as stated: while a session watching "/a" is active, a start
request for "/b" yields no AlreadyWatchingError — the code defines no such
error and surfaces nothing at all: the outcome is the same noAction as doing
nothing, though the state is indeed unchanged and still watches "/a". -/
theorem C6_counterexample :
    controlStep stateActiveA (UserAction.clickStart "/b".data) =
      (stateActiveA, UiOutcome.noAction, [])
    ∧ controlStep stateActiveA UserAction.noClick =
      (stateActiveA, UiOutcome.noAction, [])
    ∧ stateActiveA.observer = some ⟨"/a".data⟩ := by
  exact ⟨rfl, rfl, rfl⟩

/-- C6 (amended): while monitoring is active a start request changes nothing:
the whole session state, the watched path included, is kept, and the outcome
is noAction — no error value exists or is surfaced, the Start button simply
is not rendered. -/
theorem C6_start_while_active (s : SessionState) (p : List Char)
    (hm : s.monitoring = true) :
    (controlStep s (UserAction.clickStart p)).1 = s
    ∧ (controlStep s (UserAction.clickStart p)).2.1 = UiOutcome.noAction
    ∧ (controlStep s (UserAction.clickStart p)).1.observer = s.observer := by
  simp [controlStep, hm]

/-- Witness for C6 on the concrete active state watching "/a". -/
theorem C6_witness :
    stateActiveA.monitoring = true
    ∧ (controlStep stateActiveA (UserAction.clickStart "/b".data)).1 =
        stateActiveA :=
  ⟨rfl, (C6_start_while_active stateActiveA ("/b".data) rfl).1⟩

/-- C7: the stop handler is idempotent — a second stop produces no error,
changes nothing and performs no observer operation; one stop alone already
leaves the state idle (monitoring flag down, observer handle cleared); and
when an observer is present the first stop performs halt followed by join,
the join returning only once the observer thread has terminated. -/
theorem C7_stop_idempotent (s : SessionState) :
    (stopClick (stopClick s).1).1 = (stopClick s).1
    ∧ (stopClick s).1.monitoring = false
    ∧ (stopClick s).1.observer = none
    ∧ (stopClick (stopClick s).1).2 = []
    ∧ (stopClick s).2 =
        (if s.observer.isSome then [ObsOp.halt, ObsOp.join] else []) := by
  rcases s with ⟨q, obs, el, mon⟩
  cases obs <;> simp [stopClick, stop_observer]

/-- Queued events used to compare the return value of the drain. -/
def evA : FileEventWrapper := ⟨"created", "/w/p.txt".data, 10⟩

/-- Second queued event for the two-element queue state. -/
def evB : FileEventWrapper := ⟨"created", "/w/q.txt".data, 20⟩

/-- Monitoring state with two events queued. -/
def stateTwoQueued : SessionState := ⟨[evA, evB], none, [], true⟩

/-- Monitoring state with one event queued. -/
def stateOneQueued : SessionState := ⟨[evA], none, [], true⟩

/-- C8 is false as stated: check_events_and_update returns the same value on
a one-event queue and a two-event queue, so its return value is a processed
flag, not the number of events ingested. -/
theorem C8_counterexample :
    (check_events_and_update stateTwoQueued).2 =
      (check_events_and_update stateOneQueued).2
    ∧ stateTwoQueued.event_queue.length = 2
    ∧ stateOneQueued.event_queue.length = 1 := by
  exact ⟨rfl, rfl, rfl⟩

/-- C8 (amended): check_events_and_update drains the whole queue into the
event history in arrival order, leaves the queue empty, and returns a boolean
telling whether at least one event was ingested — not the count. -/
theorem C8_poll_tick (s : SessionState) :
    (check_events_and_update s).1.event_list = s.event_list ++ s.event_queue
    ∧ (check_events_and_update s).1.event_queue = []
    ∧ (check_events_and_update s).2 = !s.event_queue.isEmpty := by
  simp [check_events_and_update_eq]

/-- Raw event for a ".DS_Store" file, not a directory. -/
def evDSStore : RawEvent := ⟨"created", "/w/.DS_Store".data, false⟩

/-- C9: whatever the raw event, if file_viewer.py's handler enqueues it then
file_viewer_0.py's handler does too, and the inclusion is strict: the
".DS_Store" file event is enqueued by the latter but not by the former, so
the two handlers are not equivalent. -/
theorem C9_handlers_subset_not_equiv :
    (∀ e : RawEvent, shouldEnqueue e = true → shouldEnqueueV0 e = true)
    ∧ shouldEnqueueV0 evDSStore = true ∧ shouldEnqueue evDSStore = false := by
  refine ⟨?_, rfl, by decide⟩
  intro e h
  have := ((shouldEnqueue_eq_true_iff e).1 h).1
  simp [shouldEnqueueV0, this]

/-- Witness for C9 on an ordinary file event accepted by both handlers. -/
theorem C9_witness :
    shouldEnqueueV0 ⟨"created", "/w/ok.txt".data, false⟩ = true :=
  C9_handlers_subset_not_equiv.1 ⟨"created", "/w/ok.txt".data, false⟩ (by decide)

/-- C10: when the configuration file does not exist, load_config returns the
default configuration with refresh_rate 15000 and starting_directory
"~/Downloads", whatever the yaml parser would have done. -/
theorem C10_load_config_default (parseYaml : String → Config) :
    load_config none parseYaml = defaultConfig
    ∧ defaultConfig.refresh_rate = 15000
    ∧ defaultConfig.starting_directory = "~/Downloads" :=
  ⟨rfl, rfl, rfl⟩
